import Mathlib

/-!
# Verification of the geos operation-catalog layer (`strategy_geos.go`)

The repository exposes 2D geometry operations as marshal → delegate →
unmarshal shims over an external native engine.  This file embeds:

* the geometry data model and the WKT-style serialization codec
  (`MarshalString` / `UnmarshalString`) — both live outside the provided
  sources, so they are modelled from the specification at the token level
  (a token stands for one lexeme of the textual exchange format; character
  level formatting of numbers is abstracted into the `num` token);
* the `GEOAlgorithm` catalog type and all of its methods, translated
  one-for-one from `strategy_geos.go`, parameterized by the external
  engine (the `geo` package), which the specification treats as a black
  box collaborator.

Theorems at the end settle the claims about error propagation, the
shim protocol, round-tripping, symmetry, idempotence, purity and the
geometry/error exclusivity of results.
-/

namespace Geos

/-- A 2D coordinate; `float64` ordinates are modelled exactly since this
layer never computes with them, only passes them through. -/
abbrev Coord := Rat × Rat

/-- Modelled from the spec: the in-memory geometry value (§3 data model).
The source's `Geometry` type is declared outside the provided sources. -/
inductive Geometry where
  | point (c : Coord)
  | lineString (cs : List Coord)
  | polygon (rings : List (List Coord))
  | multiPoint (cs : List Coord)
  | multiLineString (ls : List (List Coord))
  | multiPolygon (ps : List (List (List Coord)))
  | collection (gs : List Geometry)

/-- The variant keywords of the WKT-style textual exchange format (§6). -/
inductive Kw where
  | point
  | linestring
  | polygon
  | multipoint
  | multilinestring
  | multipolygon
  | geometrycollection
deriving DecidableEq

/-- One lexeme of the WKT-style textual exchange format (§6): a variant
keyword, parentheses, a comma, a coordinate number, or `EMPTY`. -/
inductive Tok where
  | kw (k : Kw)
  | lp
  | rp
  | comma
  | num (q : Rat)
  | emptyTok
deriving DecidableEq

/-- Serialized geometry text, as a stream of lexemes. -/
abbrev Wkt := List Tok

/-- Serialize one coordinate tuple: two numbers. -/
def serCoord (c : Coord) : List Tok := [.num c.1, .num c.2]

/-- Serialize a comma-separated coordinate sequence. -/
def serCoords : List Coord → List Tok
  | [] => []
  | [c] => serCoord c
  | c :: cs => serCoord c ++ .comma :: serCoords cs

/-- Wrap a token sequence in parentheses. -/
def serParen (body : List Tok) : List Tok := .lp :: body ++ [.rp]

/-- Serialize a comma-separated sequence of parenthesized coordinate
groups (the rings of a polygon / lines of a multilinestring). -/
def serGroups : List (List Coord) → List Tok
  | [] => []
  | [r] => serParen (serCoords r)
  | r :: rs => serParen (serCoords r) ++ .comma :: serGroups rs

/-- Serialize one polygon of a multipolygon: its rings in parentheses. -/
def serGroupGroup (rs : List (List Coord)) : List Tok :=
  .lp :: serGroups rs ++ [.rp]

/-- Serialize a comma-separated sequence of parenthesized ring groups
(the polygons of a multipolygon). -/
def serGroups2 : List (List (List Coord)) → List Tok
  | [] => []
  | [p] => serGroupGroup p
  | p :: ps => serGroupGroup p ++ .comma :: serGroups2 ps

mutual

/-- Modelled from the spec: serialize a geometry to exchange-format text
(`MarshalString` in the source, declared outside the provided sources).
A keyword, then either `EMPTY` or the parenthesized coordinate body. -/
def serGeom : Geometry → List Tok
  | .point c => [.kw .point, .lp, .num c.1, .num c.2, .rp]
  | .lineString [] => [.kw .linestring, .emptyTok]
  | .lineString (c :: cs) => .kw .linestring :: .lp :: (serCoords (c :: cs) ++ [.rp])
  | .multiPoint [] => [.kw .multipoint, .emptyTok]
  | .multiPoint (c :: cs) => .kw .multipoint :: .lp :: (serCoords (c :: cs) ++ [.rp])
  | .polygon [] => [.kw .polygon, .emptyTok]
  | .polygon (r :: rs) => .kw .polygon :: .lp :: (serGroups (r :: rs) ++ [.rp])
  | .multiLineString [] => [.kw .multilinestring, .emptyTok]
  | .multiLineString (l :: ls) => .kw .multilinestring :: .lp :: (serGroups (l :: ls) ++ [.rp])
  | .multiPolygon [] => [.kw .multipolygon, .emptyTok]
  | .multiPolygon (p :: ps) => .kw .multipolygon :: .lp :: (serGroups2 (p :: ps) ++ [.rp])
  | .collection [] => [.kw .geometrycollection, .emptyTok]
  | .collection (g :: gs) => .kw .geometrycollection :: .lp :: (serGeomList (g :: gs) ++ [.rp])

/-- Serialize a comma-separated sequence of geometries (collection body). -/
def serGeomList : List Geometry → List Tok
  | [] => []
  | [g] => serGeom g
  | g :: gs => serGeom g ++ .comma :: serGeomList gs

end

/-- Parse a nonempty comma-separated coordinate sequence, leaving the
unconsumed tail. -/
def parseCoords : List Tok → Option (List Coord × List Tok)
  | .num x :: .num y :: .comma :: rest =>
      match parseCoords rest with
      | some (cs, r) => some ((x, y) :: cs, r)
      | none => none
  | .num x :: .num y :: rest => some ([(x, y)], rest)
  | _ => none

/-- Parse one parenthesized coordinate group. -/
def parseCoordGroup : List Tok → Option (List Coord × List Tok)
  | .lp :: .rp :: rest => some (([] : List Coord), rest)
  | .lp :: rest =>
      match parseCoords rest with
      | some (cs, .rp :: r) => some (cs, r)
      | _ => none
  | _ => none

/-- Parse a nonempty comma-separated sequence of parenthesized coordinate
groups; the fuel bounds the number of groups. -/
def parseGroups : Nat → List Tok → Option (List (List Coord) × List Tok)
  | 0, _ => none
  | fuel + 1, toks =>
      match parseCoordGroup toks with
      | some (cs, .comma :: rest) =>
          match parseGroups fuel rest with
          | some (gs, r) => some (cs :: gs, r)
          | none => none
      | some (cs, rest) => some ([cs], rest)
      | none => none

/-- Parse one parenthesized group of coordinate groups (one polygon of a
multipolygon). -/
def parseGroupGroup (fuel : Nat) : List Tok → Option (List (List Coord) × List Tok)
  | .lp :: .rp :: rest => some (([] : List (List Coord)), rest)
  | .lp :: rest =>
      match parseGroups fuel rest with
      | some (rs, .rp :: r) => some (rs, r)
      | _ => none
  | _ => none

/-- Parse a nonempty comma-separated sequence of parenthesized ring
groups (the polygons of a multipolygon). -/
def parseGroups2 : Nat → List Tok → Option (List (List (List Coord)) × List Tok)
  | 0, _ => none
  | fuel + 1, toks =>
      match parseGroupGroup fuel toks with
      | some (p, .comma :: rest) =>
          match parseGroups2 fuel rest with
          | some (ps, r) => some (p :: ps, r)
          | none => none
      | some (p, rest) => some ([p], rest)
      | none => none

mutual

/-- Modelled from the spec: parse one geometry off the front of the token
stream (the recursive-descent core of `UnmarshalString`, which is
declared outside the provided sources).  The fuel bounds recursion
depth; `toks.length` is always sufficient. -/
def parseGeom : Nat → List Tok → Option (Geometry × List Tok)
  | 0, _ => none
  | fuel + 1, toks =>
      match toks with
      | .kw .point :: .lp :: .num x :: .num y :: .rp :: rest => some (.point (x, y), rest)
      | .kw .linestring :: .emptyTok :: rest => some (.lineString [], rest)
      | .kw .linestring :: rest =>
          match parseCoordGroup rest with
          | some (cs, r) => some (.lineString cs, r)
          | none => none
      | .kw .multipoint :: .emptyTok :: rest => some (.multiPoint [], rest)
      | .kw .multipoint :: rest =>
          match parseCoordGroup rest with
          | some (cs, r) => some (.multiPoint cs, r)
          | none => none
      | .kw .polygon :: .emptyTok :: rest => some (.polygon [], rest)
      | .kw .polygon :: .lp :: rest =>
          match parseGroups fuel rest with
          | some (rs, .rp :: r) => some (.polygon rs, r)
          | _ => none
      | .kw .multilinestring :: .emptyTok :: rest => some (.multiLineString [], rest)
      | .kw .multilinestring :: .lp :: rest =>
          match parseGroups fuel rest with
          | some (ls, .rp :: r) => some (.multiLineString ls, r)
          | _ => none
      | .kw .multipolygon :: .emptyTok :: rest => some (.multiPolygon [], rest)
      | .kw .multipolygon :: .lp :: rest =>
          match parseGroups2 fuel rest with
          | some (ps, .rp :: r) => some (.multiPolygon ps, r)
          | _ => none
      | .kw .geometrycollection :: .emptyTok :: rest => some (.collection [], rest)
      | .kw .geometrycollection :: .lp :: rest =>
          match parseGeomList fuel rest with
          | some (gs, .rp :: r) => some (.collection gs, r)
          | _ => none
      | _ => none

/-- Parse a nonempty comma-separated sequence of geometries. -/
def parseGeomList : Nat → List Tok → Option (List Geometry × List Tok)
  | 0, _ => none
  | fuel + 1, toks =>
      match parseGeom fuel toks with
      | some (g, .comma :: rest) =>
          match parseGeomList fuel rest with
          | some (gs, r) => some (g :: gs, r)
          | none => none
      | some (g, rest) => some ([g], rest)
      | none => none

end

/-- Modelled from the spec: `MarshalString` (§4.1 `serialize`), a total
function from geometries to exchange-format text; declared outside the
provided sources. -/
def MarshalString (g : Geometry) : Wkt := serGeom g

/-- A deserialization failure (§7 `ParseError`). -/
structure ParseFailure where
  msg : String
deriving DecidableEq

/-- Modelled from the spec: `UnmarshalString` (§4.1 `deserialize`),
returning a Go-style `(Geometry, error)` pair: either a geometry or a
`ParseError`, never both and never neither; declared outside the
provided sources. -/
def UnmarshalString (t : Wkt) : Option Geometry × Option ParseFailure :=
  match parseGeom t.length t with
  | some (g, []) => (some g, none)
  | _ => (none, some ⟨"ParseError"⟩)

/-- A failure reported by the external engine (§7 `EngineError`),
carrying the engine's message. -/
structure EngineFailure where
  msg : String
deriving DecidableEq

/-- A typed error returned by a catalog operation: either the engine's
own failure or a failure deserializing the engine's output (§7). -/
inductive Err where
  | engine (f : EngineFailure)
  | parse (f : ParseFailure)
deriving DecidableEq

/-- A Go-style `(Geometry, error)` result pair. -/
abbrev GeoRes := Option Geometry × Option Err

/-- The external native geometry engine (the `geo` package), §6: one
function per catalog operation, taking exchange-format text and scalars
and returning a Go-style value/error pair.  It is a black box: every
theorem below is parameterized over it. -/
structure Engine where
  Area : Wkt → Rat × Option EngineFailure
  Boundary : Wkt → Wkt × Option EngineFailure
  Centroid : Wkt → Wkt × Option EngineFailure
  IsSimple : Wkt → Bool × Option EngineFailure
  Length : Wkt → Rat × Option EngineFailure
  Distance : Wkt → Wkt → Rat × Option EngineFailure
  HausdorffDistance : Wkt → Wkt → Rat × Option EngineFailure
  IsEmpty : Wkt → Bool × Option EngineFailure
  Envelope : Wkt → Wkt × Option EngineFailure
  ConvexHull : Wkt → Wkt × Option EngineFailure
  UnaryUnion : Wkt → Wkt × Option EngineFailure
  PointOnSurface : Wkt → Wkt × Option EngineFailure
  LineMerge : Wkt → Wkt × Option EngineFailure
  Simplify : Wkt → Rat → Wkt × Option EngineFailure
  SimplifyP : Wkt → Rat → Wkt × Option EngineFailure
  Overlaps : Wkt → Wkt → Bool × Option EngineFailure
  Equals : Wkt → Wkt → Bool × Option EngineFailure
  Covers : Wkt → Wkt → Bool × Option EngineFailure
  CoversBy : Wkt → Wkt → Bool × Option EngineFailure
  IsRing : Wkt → Bool × Option EngineFailure
  HasZ : Wkt → Bool × Option EngineFailure
  IsClosed : Wkt → Bool × Option EngineFailure
  NGeometry : Wkt → Int × Option EngineFailure
  Buffer : Wkt → Rat → Int → Wkt × Option EngineFailure
  EqualsExact : Wkt → Wkt → Rat → Bool × Option EngineFailure
  HausdorffDistanceDensify : Wkt → Wkt → Rat → Rat × Option EngineFailure
  Relate : Wkt → Wkt → String × Option EngineFailure
  Crosses : Wkt → Wkt → Bool × Option EngineFailure
  Within : Wkt → Wkt → Bool × Option EngineFailure
  Contains : Wkt → Wkt → Bool × Option EngineFailure
  UniquePoints : Wkt → Wkt × Option EngineFailure
  SharedPaths : Wkt → Wkt → String × Option EngineFailure
  Snap : Wkt → Wkt → Rat → Wkt × Option EngineFailure
  Intersection : Wkt → Wkt → Wkt × Option EngineFailure
  Difference : Wkt → Wkt → Wkt × Option EngineFailure
  SymDifference : Wkt → Wkt → Wkt × Option EngineFailure
  Union : Wkt → Wkt → Wkt × Option EngineFailure
  Disjoint : Wkt → Wkt → Bool × Option EngineFailure
  Touches : Wkt → Wkt → Bool × Option EngineFailure
  Intersects : Wkt → Wkt → Bool × Option EngineFailure

/-- `GEOAlgorithm` — the fully implemented catalog type of the source
(`strategy_geos.go` line 8): a struct with no fields. -/
structure GEOAlgorithm

/-- The post-engine control flow shared by `Boundary`, `Centroid`,
`UniquePoints`, `Snap`, `Intersection`, `Difference`, `SymDifference`
and `Union`: check the engine error, unmarshal, check the parse error,
then `return geometry, nil`. -/
def geomResultOfA (r : Wkt × Option EngineFailure) : GeoRes :=
  match r.2 with
  | some e => (none, some (Err.engine e))
  | none =>
    let u := UnmarshalString r.1
    match u.2 with
    | some pe => (none, some (Err.parse pe))
    | none => (u.1, none)

/-- The post-engine control flow shared by `Envelope`, `ConvexHull`,
`UnaryUnion`, `PointOnSurface`, `LineMerge`, `Simplify` and `SimplifyP`:
check the engine error, then `return UnmarshalString(out)` as-is. -/
def geomResultOfB (r : Wkt × Option EngineFailure) : GeoRes :=
  match r.2 with
  | some e => (none, some (Err.engine e))
  | none =>
    let u := UnmarshalString r.1
    (u.1, u.2.map Err.parse)

/-- The pass-through result of the scalar/boolean/string operations:
`return geo.F(...)` verbatim. -/
def scalarResult {α : Type} (r : α × Option EngineFailure) : α × Option Err :=
  (r.1, r.2.map Err.engine)

namespace GEOAlgorithm

/-- `Area` (src line 11): marshal, delegate, pass the pair through. -/
def Area (_ : GEOAlgorithm) (E : Engine) (g : Geometry) : Rat × Option Err :=
  let s := MarshalString g
  scalarResult (E.Area s)

/-- `Boundary` (src line 17): marshal, delegate, check, unmarshal, check. -/
def Boundary (_ : GEOAlgorithm) (E : Engine) (g : Geometry) : GeoRes :=
  let s := MarshalString g
  geomResultOfA (E.Boundary s)

/-- `Centroid` (src line 38). -/
def Centroid (_ : GEOAlgorithm) (E : Engine) (g : Geometry) : GeoRes :=
  let s := MarshalString g
  geomResultOfA (E.Centroid s)

/-- `IsSimple` (src line 52). -/
def IsSimple (_ : GEOAlgorithm) (E : Engine) (g : Geometry) : Bool × Option Err :=
  let s := MarshalString g
  scalarResult (E.IsSimple s)

/-- `Length` (src line 58). -/
def Length (_ : GEOAlgorithm) (E : Engine) (g : Geometry) : Rat × Option Err :=
  let s := MarshalString g
  scalarResult (E.Length s)

/-- `Distance` (src line 64). -/
def Distance (_ : GEOAlgorithm) (E : Engine) (g1 g2 : Geometry) : Rat × Option Err :=
  let geom1 := MarshalString g1
  let geom2 := MarshalString g2
  scalarResult (E.Distance geom1 geom2)

/-- `HausdorffDistance` (src line 74). -/
def HausdorffDistance (_ : GEOAlgorithm) (E : Engine) (g1 g2 : Geometry) : Rat × Option Err :=
  let geom1 := MarshalString g1
  let geom2 := MarshalString g2
  scalarResult (E.HausdorffDistance geom1 geom2)

/-- `IsEmpty` (src line 82). -/
def IsEmpty (_ : GEOAlgorithm) (E : Engine) (g : Geometry) : Bool × Option Err :=
  let wkt := MarshalString g
  scalarResult (E.IsEmpty wkt)

/-- `Envelope` (src line 90): check the engine error, then
`return UnmarshalString(envelope)`. -/
def Envelope (_ : GEOAlgorithm) (E : Engine) (g : Geometry) : GeoRes :=
  let wkt := MarshalString g
  geomResultOfB (E.Envelope wkt)

/-- `ConvexHull` (src line 104). -/
def ConvexHull (_ : GEOAlgorithm) (E : Engine) (g : Geometry) : GeoRes :=
  let wkt := MarshalString g
  geomResultOfB (E.ConvexHull wkt)

/-- `UnaryUnion` (src line 115). -/
def UnaryUnion (_ : GEOAlgorithm) (E : Engine) (g : Geometry) : GeoRes :=
  let wkt := MarshalString g
  geomResultOfB (E.UnaryUnion wkt)

/-- `PointOnSurface` (src line 125). -/
def PointOnSurface (_ : GEOAlgorithm) (E : Engine) (g : Geometry) : GeoRes :=
  let wkt := MarshalString g
  geomResultOfB (E.PointOnSurface wkt)

/-- `LineMerge` (src line 135). -/
def LineMerge (_ : GEOAlgorithm) (E : Engine) (g : Geometry) : GeoRes :=
  let wkt := MarshalString g
  geomResultOfB (E.LineMerge wkt)

/-- `Simplify` (src line 146). -/
def Simplify (_ : GEOAlgorithm) (E : Engine) (g : Geometry) (tolerance : Rat) : GeoRes :=
  let wkt := MarshalString g
  geomResultOfB (E.Simplify wkt tolerance)

/-- `SimplifyP` (src line 157). -/
def SimplifyP (_ : GEOAlgorithm) (E : Engine) (g : Geometry) (tolerance : Rat) : GeoRes :=
  let wkt := MarshalString g
  geomResultOfB (E.SimplifyP wkt tolerance)

/-- `Overlaps` (src line 168). -/
def Overlaps (_ : GEOAlgorithm) (E : Engine) (g1 g2 : Geometry) : Bool × Option Err :=
  let geom1 := MarshalString g1
  let geom2 := MarshalString g2
  scalarResult (E.Overlaps geom1 geom2)

/-- `Equals` (src line 176). -/
def Equals (_ : GEOAlgorithm) (E : Engine) (g1 g2 : Geometry) : Bool × Option Err :=
  let geom1 := MarshalString g1
  let geom2 := MarshalString g2
  scalarResult (E.Equals geom1 geom2)

/-- `Covers` (src line 183). -/
def Covers (_ : GEOAlgorithm) (E : Engine) (g1 g2 : Geometry) : Bool × Option Err :=
  let geom1 := MarshalString g1
  let geom2 := MarshalString g2
  scalarResult (E.Covers geom1 geom2)

/-- `CoveredBy` (src line 190): delegates to the engine's `CoversBy`. -/
def CoveredBy (_ : GEOAlgorithm) (E : Engine) (g1 g2 : Geometry) : Bool × Option Err :=
  let geom1 := MarshalString g1
  let geom2 := MarshalString g2
  scalarResult (E.CoversBy geom1 geom2)

/-- `IsRing` (src line 197). -/
def IsRing (_ : GEOAlgorithm) (E : Engine) (g : Geometry) : Bool × Option Err :=
  let geom := MarshalString g
  scalarResult (E.IsRing geom)

/-- `HasZ` (src line 203). -/
def HasZ (_ : GEOAlgorithm) (E : Engine) (g : Geometry) : Bool × Option Err :=
  let geom := MarshalString g
  scalarResult (E.HasZ geom)

/-- `IsClosed` (src line 210). -/
def IsClosed (_ : GEOAlgorithm) (E : Engine) (g : Geometry) : Bool × Option Err :=
  let geom := MarshalString g
  scalarResult (E.IsClosed geom)

/-- `NGeometry` (src line 216). -/
def NGeometry (_ : GEOAlgorithm) (E : Engine) (g : Geometry) : Int × Option Err :=
  let wkt := MarshalString g
  scalarResult (E.NGeometry wkt)

/-- `Buffer` (src line 223): the one catalog method whose signature has
no error result.  On engine failure it returns the nil named return; on
unmarshal failure it discards the error (`geometry, _ = ...`). -/
def Buffer (_ : GEOAlgorithm) (E : Engine) (g : Geometry) (width : Rat) (quadsegs : Int) :
    Option Geometry :=
  let wkt := MarshalString g
  let r := E.Buffer wkt width quadsegs
  match r.2 with
  | some _ => none
  | none => (UnmarshalString r.1).1

/-- `EqualsExact` (src line 238). -/
def EqualsExact (_ : GEOAlgorithm) (E : Engine) (g1 g2 : Geometry) (tolerance : Rat) :
    Bool × Option Err :=
  let wkt1 := MarshalString g1
  let wkt2 := MarshalString g2
  scalarResult (E.EqualsExact wkt1 wkt2 tolerance)

/-- `HausdorffDistanceDensify` (src line 247). -/
def HausdorffDistanceDensify (_ : GEOAlgorithm) (E : Engine) (s d : Geometry)
    (densifyFrac : Rat) : Rat × Option Err :=
  let wkt1 := MarshalString s
  let wkt2 := MarshalString d
  scalarResult (E.HausdorffDistanceDensify wkt1 wkt2 densifyFrac)

/-- `Relate` (src line 258). -/
def Relate (_ : GEOAlgorithm) (E : Engine) (s d : Geometry) : String × Option Err :=
  let wkt1 := MarshalString s
  let wkt2 := MarshalString d
  scalarResult (E.Relate wkt1 wkt2)

/-- `Crosses` (src line 272). -/
def Crosses (_ : GEOAlgorithm) (E : Engine) (g1 g2 : Geometry) : Bool × Option Err :=
  let geom1 := MarshalString g1
  let geom2 := MarshalString g2
  scalarResult (E.Crosses geom1 geom2)

/-- `Within` (src line 281). -/
def Within (_ : GEOAlgorithm) (E : Engine) (g1 g2 : Geometry) : Bool × Option Err :=
  let geom1 := MarshalString g1
  let geom2 := MarshalString g2
  scalarResult (E.Within geom1 geom2)

/-- `Contains` (src line 293). -/
def Contains (_ : GEOAlgorithm) (E : Engine) (g1 g2 : Geometry) : Bool × Option Err :=
  let geom1 := MarshalString g1
  let geom2 := MarshalString g2
  scalarResult (E.Contains geom1 geom2)

/-- `UniquePoints` (src line 300). -/
def UniquePoints (_ : GEOAlgorithm) (E : Engine) (g : Geometry) : GeoRes :=
  let geom := MarshalString g
  geomResultOfA (E.UniquePoints geom)

/-- `SharedPaths` (src line 318): string result with an explicit engine
error check (`return "", e`). -/
def SharedPaths (_ : GEOAlgorithm) (E : Engine) (g1 g2 : Geometry) : String × Option Err :=
  let geom1 := MarshalString g1
  let geom2 := MarshalString g2
  let r := E.SharedPaths geom1 geom2
  match r.2 with
  | some e => ("", some (Err.engine e))
  | none => (r.1, none)

/-- `Snap` (src line 332). -/
def Snap (_ : GEOAlgorithm) (E : Engine) (input reference : Geometry) (tolerance : Rat) :
    GeoRes :=
  let inGeom := MarshalString input
  let refGeom := MarshalString reference
  geomResultOfA (E.Snap inGeom refGeom tolerance)

/-- `Intersection` (src line 347). -/
def Intersection (_ : GEOAlgorithm) (E : Engine) (g1 g2 : Geometry) : GeoRes :=
  let geom1 := MarshalString g1
  let geom2 := MarshalString g2
  geomResultOfA (E.Intersection geom1 geom2)

/-- `Difference` (src line 364). -/
def Difference (_ : GEOAlgorithm) (E : Engine) (g1 g2 : Geometry) : GeoRes :=
  let geom1 := MarshalString g1
  let geom2 := MarshalString g2
  geomResultOfA (E.Difference geom1 geom2)

/-- `SymDifference` (src line 381). -/
def SymDifference (_ : GEOAlgorithm) (E : Engine) (g1 g2 : Geometry) : GeoRes :=
  let geom1 := MarshalString g1
  let geom2 := MarshalString g2
  geomResultOfA (E.SymDifference geom1 geom2)

/-- `Union` (src line 396). -/
def Union (_ : GEOAlgorithm) (E : Engine) (g1 g2 : Geometry) : GeoRes :=
  let geom1 := MarshalString g1
  let geom2 := MarshalString g2
  geomResultOfA (E.Union geom1 geom2)

/-- `Disjoint` (src line 413). -/
def Disjoint (_ : GEOAlgorithm) (E : Engine) (g1 g2 : Geometry) : Bool × Option Err :=
  let geom1 := MarshalString g1
  let geom2 := MarshalString g2
  scalarResult (E.Disjoint geom1 geom2)

/-- `Touches` (src line 422). -/
def Touches (_ : GEOAlgorithm) (E : Engine) (g1 g2 : Geometry) : Bool × Option Err :=
  let geom1 := MarshalString g1
  let geom2 := MarshalString g2
  scalarResult (E.Touches geom1 geom2)

/-- `Intersects` (src line 429). -/
def Intersects (_ : GEOAlgorithm) (E : Engine) (g1 g2 : Geometry) : Bool × Option Err :=
  let geom1 := MarshalString g1
  let geom2 := MarshalString g2
  scalarResult (E.Intersects geom1 geom2)

end GEOAlgorithm

/-- The operation catalog of §4.2: one name per documented operation. -/
inductive CatalogOp where
  | area
  | boundary
  | centroid
  | isSimple
  | length
  | distance
  | hausdorffDistance
  | isEmpty
  | envelope
  | convexHull
  | unaryUnion
  | pointOnSurface
  | lineMerge
  | simplify
  | simplifyP
  | overlaps
  | equals
  | covers
  | coveredBy
  | isRing
  | hasZ
  | isClosed
  | nGeometry
  | buffer
  | equalsExact
  | hausdorffDistanceDensify
  | relate
  | crosses
  | within
  | contains
  | uniquePoints
  | sharedPaths
  | snap
  | intersection
  | difference
  | symDifference
  | union
  | disjoint
  | touches
  | intersects
deriving DecidableEq

/-- An argument bundle carrying every parameter any catalog operation
reads; each operation uses only the fields of its own signature. -/
structure OpArgs where
  g1 : Geometry := .point (0, 0)
  g2 : Geometry := .point (0, 0)
  tol : Rat := 0
  width : Rat := 0
  quadsegs : Int := 0
  densify : Rat := 0

/-- The result of a catalog operation, tagged by its Go result shape.
`geomOnly` is the shape of `Buffer`, whose signature has no error;
`panicked` marks an unrecoverable abort (`panic`), the shape of the
stub catalog variant's unimplemented methods. -/
inductive OpResult where
  | geomRes (r : GeoRes)
  | floatRes (r : Rat × Option Err)
  | boolRes (r : Bool × Option Err)
  | intRes (r : Int × Option Err)
  | strRes (r : String × Option Err)
  | geomOnly (g : Option Geometry)
  | panicked

/-- Dispatch a catalog operation to the `GEOAlgorithm` method that
implements it — every §4.2 operation is mapped to a method. -/
def GEOAlgorithm.dispatch (G : GEOAlgorithm) (E : Engine) (o : CatalogOp) (a : OpArgs) :
    OpResult :=
  match o with
  | .area => .floatRes (G.Area E a.g1)
  | .boundary => .geomRes (G.Boundary E a.g1)
  | .centroid => .geomRes (G.Centroid E a.g1)
  | .isSimple => .boolRes (G.IsSimple E a.g1)
  | .length => .floatRes (G.Length E a.g1)
  | .distance => .floatRes (G.Distance E a.g1 a.g2)
  | .hausdorffDistance => .floatRes (G.HausdorffDistance E a.g1 a.g2)
  | .isEmpty => .boolRes (G.IsEmpty E a.g1)
  | .envelope => .geomRes (G.Envelope E a.g1)
  | .convexHull => .geomRes (G.ConvexHull E a.g1)
  | .unaryUnion => .geomRes (G.UnaryUnion E a.g1)
  | .pointOnSurface => .geomRes (G.PointOnSurface E a.g1)
  | .lineMerge => .geomRes (G.LineMerge E a.g1)
  | .simplify => .geomRes (G.Simplify E a.g1 a.tol)
  | .simplifyP => .geomRes (G.SimplifyP E a.g1 a.tol)
  | .overlaps => .boolRes (G.Overlaps E a.g1 a.g2)
  | .equals => .boolRes (G.Equals E a.g1 a.g2)
  | .covers => .boolRes (G.Covers E a.g1 a.g2)
  | .coveredBy => .boolRes (G.CoveredBy E a.g1 a.g2)
  | .isRing => .boolRes (G.IsRing E a.g1)
  | .hasZ => .boolRes (G.HasZ E a.g1)
  | .isClosed => .boolRes (G.IsClosed E a.g1)
  | .nGeometry => .intRes (G.NGeometry E a.g1)
  | .buffer => .geomOnly (G.Buffer E a.g1 a.width a.quadsegs)
  | .equalsExact => .boolRes (G.EqualsExact E a.g1 a.g2 a.tol)
  | .hausdorffDistanceDensify => .floatRes (G.HausdorffDistanceDensify E a.g1 a.g2 a.densify)
  | .relate => .strRes (G.Relate E a.g1 a.g2)
  | .crosses => .boolRes (G.Crosses E a.g1 a.g2)
  | .within => .boolRes (G.Within E a.g1 a.g2)
  | .contains => .boolRes (G.Contains E a.g1 a.g2)
  | .uniquePoints => .geomRes (G.UniquePoints E a.g1)
  | .sharedPaths => .strRes (G.SharedPaths E a.g1 a.g2)
  | .snap => .geomRes (G.Snap E a.g1 a.g2 a.tol)
  | .intersection => .geomRes (G.Intersection E a.g1 a.g2)
  | .difference => .geomRes (G.Difference E a.g1 a.g2)
  | .symDifference => .geomRes (G.SymDifference E a.g1 a.g2)
  | .union => .geomRes (G.Union E a.g1 a.g2)
  | .disjoint => .boolRes (G.Disjoint E a.g1 a.g2)
  | .touches => .boolRes (G.Touches E a.g1 a.g2)
  | .intersects => .boolRes (G.Intersects E a.g1 a.g2)

/-- The engine-reported failure, if any, for a given operation and
arguments — the `.2` of the very engine call the operation delegates to. -/
def engineErrAt (E : Engine) (o : CatalogOp) (a : OpArgs) : Option EngineFailure :=
  match o with
  | .area => (E.Area (MarshalString a.g1)).2
  | .boundary => (E.Boundary (MarshalString a.g1)).2
  | .centroid => (E.Centroid (MarshalString a.g1)).2
  | .isSimple => (E.IsSimple (MarshalString a.g1)).2
  | .length => (E.Length (MarshalString a.g1)).2
  | .distance => (E.Distance (MarshalString a.g1) (MarshalString a.g2)).2
  | .hausdorffDistance => (E.HausdorffDistance (MarshalString a.g1) (MarshalString a.g2)).2
  | .isEmpty => (E.IsEmpty (MarshalString a.g1)).2
  | .envelope => (E.Envelope (MarshalString a.g1)).2
  | .convexHull => (E.ConvexHull (MarshalString a.g1)).2
  | .unaryUnion => (E.UnaryUnion (MarshalString a.g1)).2
  | .pointOnSurface => (E.PointOnSurface (MarshalString a.g1)).2
  | .lineMerge => (E.LineMerge (MarshalString a.g1)).2
  | .simplify => (E.Simplify (MarshalString a.g1) a.tol).2
  | .simplifyP => (E.SimplifyP (MarshalString a.g1) a.tol).2
  | .overlaps => (E.Overlaps (MarshalString a.g1) (MarshalString a.g2)).2
  | .equals => (E.Equals (MarshalString a.g1) (MarshalString a.g2)).2
  | .covers => (E.Covers (MarshalString a.g1) (MarshalString a.g2)).2
  | .coveredBy => (E.CoversBy (MarshalString a.g1) (MarshalString a.g2)).2
  | .isRing => (E.IsRing (MarshalString a.g1)).2
  | .hasZ => (E.HasZ (MarshalString a.g1)).2
  | .isClosed => (E.IsClosed (MarshalString a.g1)).2
  | .nGeometry => (E.NGeometry (MarshalString a.g1)).2
  | .buffer => (E.Buffer (MarshalString a.g1) a.width a.quadsegs).2
  | .equalsExact => (E.EqualsExact (MarshalString a.g1) (MarshalString a.g2) a.tol).2
  | .hausdorffDistanceDensify =>
      (E.HausdorffDistanceDensify (MarshalString a.g1) (MarshalString a.g2) a.densify).2
  | .relate => (E.Relate (MarshalString a.g1) (MarshalString a.g2)).2
  | .crosses => (E.Crosses (MarshalString a.g1) (MarshalString a.g2)).2
  | .within => (E.Within (MarshalString a.g1) (MarshalString a.g2)).2
  | .contains => (E.Contains (MarshalString a.g1) (MarshalString a.g2)).2
  | .uniquePoints => (E.UniquePoints (MarshalString a.g1)).2
  | .sharedPaths => (E.SharedPaths (MarshalString a.g1) (MarshalString a.g2)).2
  | .snap => (E.Snap (MarshalString a.g1) (MarshalString a.g2) a.tol).2
  | .intersection => (E.Intersection (MarshalString a.g1) (MarshalString a.g2)).2
  | .difference => (E.Difference (MarshalString a.g1) (MarshalString a.g2)).2
  | .symDifference => (E.SymDifference (MarshalString a.g1) (MarshalString a.g2)).2
  | .union => (E.Union (MarshalString a.g1) (MarshalString a.g2)).2
  | .disjoint => (E.Disjoint (MarshalString a.g1) (MarshalString a.g2)).2
  | .touches => (E.Touches (MarshalString a.g1) (MarshalString a.g2)).2
  | .intersects => (E.Intersects (MarshalString a.g1) (MarshalString a.g2)).2

/-- The deserialization failure of an engine output pair: only defined
when the engine succeeded and its geometry text does not parse. -/
def parseErrOf (r : Wkt × Option EngineFailure) : Option ParseFailure :=
  match r.2 with
  | some _ => none
  | none => (UnmarshalString r.1).2

/-- The deserialization failure, if any, for a given operation and
arguments; `none` for operations whose engine result is not geometry
text. -/
def parseErrAt (E : Engine) (o : CatalogOp) (a : OpArgs) : Option ParseFailure :=
  match o with
  | .boundary => parseErrOf (E.Boundary (MarshalString a.g1))
  | .centroid => parseErrOf (E.Centroid (MarshalString a.g1))
  | .envelope => parseErrOf (E.Envelope (MarshalString a.g1))
  | .convexHull => parseErrOf (E.ConvexHull (MarshalString a.g1))
  | .unaryUnion => parseErrOf (E.UnaryUnion (MarshalString a.g1))
  | .pointOnSurface => parseErrOf (E.PointOnSurface (MarshalString a.g1))
  | .lineMerge => parseErrOf (E.LineMerge (MarshalString a.g1))
  | .simplify => parseErrOf (E.Simplify (MarshalString a.g1) a.tol)
  | .simplifyP => parseErrOf (E.SimplifyP (MarshalString a.g1) a.tol)
  | .buffer => parseErrOf (E.Buffer (MarshalString a.g1) a.width a.quadsegs)
  | .uniquePoints => parseErrOf (E.UniquePoints (MarshalString a.g1))
  | .snap => parseErrOf (E.Snap (MarshalString a.g1) (MarshalString a.g2) a.tol)
  | .intersection => parseErrOf (E.Intersection (MarshalString a.g1) (MarshalString a.g2))
  | .difference => parseErrOf (E.Difference (MarshalString a.g1) (MarshalString a.g2))
  | .symDifference => parseErrOf (E.SymDifference (MarshalString a.g1) (MarshalString a.g2))
  | .union => parseErrOf (E.Union (MarshalString a.g1) (MarshalString a.g2))
  | _ => none

/-- The typed error a caller receives from an operation result; `Buffer`
results carry no error channel at all. -/
def resErr : OpResult → Option Err
  | .geomRes r => r.2
  | .floatRes r => r.2
  | .boolRes r => r.2
  | .intRes r => r.2
  | .strRes r => r.2
  | .geomOnly _ => none
  | .panicked => none

/-- Modelled from the spec: the §4.2 five-step protocol for a
geometry-text result — propagate an engine failure as a typed error,
otherwise deserialize and propagate a deserialization failure
distinctly, otherwise return the geometry. -/
def protocolGeom (r : Wkt × Option EngineFailure) : GeoRes :=
  match r.2 with
  | some e => (none, some (Err.engine e))
  | none =>
    let u := UnmarshalString r.1
    match u.2 with
    | some pe => (none, some (Err.parse pe))
    | none => (u.1, none)

/-- Modelled from the spec: the §4.2 protocol applied to each catalog
operation — marshal every geometry input, delegate to the engine
operation of the same name, deserialize geometry-text results, and
return scalar/boolean/string results unchanged. -/
def protocol (E : Engine) (o : CatalogOp) (a : OpArgs) : OpResult :=
  match o with
  | .area => .floatRes (scalarResult (E.Area (MarshalString a.g1)))
  | .boundary => .geomRes (protocolGeom (E.Boundary (MarshalString a.g1)))
  | .centroid => .geomRes (protocolGeom (E.Centroid (MarshalString a.g1)))
  | .isSimple => .boolRes (scalarResult (E.IsSimple (MarshalString a.g1)))
  | .length => .floatRes (scalarResult (E.Length (MarshalString a.g1)))
  | .distance => .floatRes (scalarResult (E.Distance (MarshalString a.g1) (MarshalString a.g2)))
  | .hausdorffDistance =>
      .floatRes (scalarResult (E.HausdorffDistance (MarshalString a.g1) (MarshalString a.g2)))
  | .isEmpty => .boolRes (scalarResult (E.IsEmpty (MarshalString a.g1)))
  | .envelope => .geomRes (protocolGeom (E.Envelope (MarshalString a.g1)))
  | .convexHull => .geomRes (protocolGeom (E.ConvexHull (MarshalString a.g1)))
  | .unaryUnion => .geomRes (protocolGeom (E.UnaryUnion (MarshalString a.g1)))
  | .pointOnSurface => .geomRes (protocolGeom (E.PointOnSurface (MarshalString a.g1)))
  | .lineMerge => .geomRes (protocolGeom (E.LineMerge (MarshalString a.g1)))
  | .simplify => .geomRes (protocolGeom (E.Simplify (MarshalString a.g1) a.tol))
  | .simplifyP => .geomRes (protocolGeom (E.SimplifyP (MarshalString a.g1) a.tol))
  | .overlaps => .boolRes (scalarResult (E.Overlaps (MarshalString a.g1) (MarshalString a.g2)))
  | .equals => .boolRes (scalarResult (E.Equals (MarshalString a.g1) (MarshalString a.g2)))
  | .covers => .boolRes (scalarResult (E.Covers (MarshalString a.g1) (MarshalString a.g2)))
  | .coveredBy => .boolRes (scalarResult (E.CoversBy (MarshalString a.g1) (MarshalString a.g2)))
  | .isRing => .boolRes (scalarResult (E.IsRing (MarshalString a.g1)))
  | .hasZ => .boolRes (scalarResult (E.HasZ (MarshalString a.g1)))
  | .isClosed => .boolRes (scalarResult (E.IsClosed (MarshalString a.g1)))
  | .nGeometry => .intRes (scalarResult (E.NGeometry (MarshalString a.g1)))
  | .buffer => .geomRes (protocolGeom (E.Buffer (MarshalString a.g1) a.width a.quadsegs))
  | .equalsExact =>
      .boolRes (scalarResult (E.EqualsExact (MarshalString a.g1) (MarshalString a.g2) a.tol))
  | .hausdorffDistanceDensify =>
      .floatRes (scalarResult
        (E.HausdorffDistanceDensify (MarshalString a.g1) (MarshalString a.g2) a.densify))
  | .relate => .strRes (scalarResult (E.Relate (MarshalString a.g1) (MarshalString a.g2)))
  | .crosses => .boolRes (scalarResult (E.Crosses (MarshalString a.g1) (MarshalString a.g2)))
  | .within => .boolRes (scalarResult (E.Within (MarshalString a.g1) (MarshalString a.g2)))
  | .contains => .boolRes (scalarResult (E.Contains (MarshalString a.g1) (MarshalString a.g2)))
  | .uniquePoints => .geomRes (protocolGeom (E.UniquePoints (MarshalString a.g1)))
  | .sharedPaths =>
      .strRes (scalarResult (E.SharedPaths (MarshalString a.g1) (MarshalString a.g2)))
  | .snap => .geomRes (protocolGeom (E.Snap (MarshalString a.g1) (MarshalString a.g2) a.tol))
  | .intersection =>
      .geomRes (protocolGeom (E.Intersection (MarshalString a.g1) (MarshalString a.g2)))
  | .difference =>
      .geomRes (protocolGeom (E.Difference (MarshalString a.g1) (MarshalString a.g2)))
  | .symDifference =>
      .geomRes (protocolGeom (E.SymDifference (MarshalString a.g1) (MarshalString a.g2)))
  | .union => .geomRes (protocolGeom (E.Union (MarshalString a.g1) (MarshalString a.g2)))
  | .disjoint => .boolRes (scalarResult (E.Disjoint (MarshalString a.g1) (MarshalString a.g2)))
  | .touches => .boolRes (scalarResult (E.Touches (MarshalString a.g1) (MarshalString a.g2)))
  | .intersects =>
      .boolRes (scalarResult (E.Intersects (MarshalString a.g1) (MarshalString a.g2)))

/-- A concrete engine in which every operation succeeds with a fixed
well-formed output: the serialized origin point for geometry text, zero
for scalars, `false` for booleans, the empty string for strings. -/
def trivialEngine : Engine where
  Area := fun _ => (0, none)
  Boundary := fun _ => (MarshalString (.point (0, 0)), none)
  Centroid := fun _ => (MarshalString (.point (0, 0)), none)
  IsSimple := fun _ => (false, none)
  Length := fun _ => (0, none)
  Distance := fun _ _ => (0, none)
  HausdorffDistance := fun _ _ => (0, none)
  IsEmpty := fun _ => (false, none)
  Envelope := fun _ => (MarshalString (.point (0, 0)), none)
  ConvexHull := fun _ => (MarshalString (.point (0, 0)), none)
  UnaryUnion := fun _ => (MarshalString (.point (0, 0)), none)
  PointOnSurface := fun _ => (MarshalString (.point (0, 0)), none)
  LineMerge := fun _ => (MarshalString (.point (0, 0)), none)
  Simplify := fun _ _ => (MarshalString (.point (0, 0)), none)
  SimplifyP := fun _ _ => (MarshalString (.point (0, 0)), none)
  Overlaps := fun _ _ => (false, none)
  Equals := fun _ _ => (false, none)
  Covers := fun _ _ => (false, none)
  CoversBy := fun _ _ => (false, none)
  IsRing := fun _ => (false, none)
  HasZ := fun _ => (false, none)
  IsClosed := fun _ => (false, none)
  NGeometry := fun _ => (0, none)
  Buffer := fun _ _ _ => (MarshalString (.point (0, 0)), none)
  EqualsExact := fun _ _ _ => (false, none)
  HausdorffDistanceDensify := fun _ _ _ => (0, none)
  Relate := fun _ _ => ("", none)
  Crosses := fun _ _ => (false, none)
  Within := fun _ _ => (false, none)
  Contains := fun _ _ => (false, none)
  UniquePoints := fun _ => (MarshalString (.point (0, 0)), none)
  SharedPaths := fun _ _ => ("", none)
  Snap := fun _ _ _ => (MarshalString (.point (0, 0)), none)
  Intersection := fun _ _ => (MarshalString (.point (0, 0)), none)
  Difference := fun _ _ => (MarshalString (.point (0, 0)), none)
  SymDifference := fun _ _ => (MarshalString (.point (0, 0)), none)
  Union := fun _ _ => (MarshalString (.point (0, 0)), none)
  Disjoint := fun _ _ => (false, none)
  Touches := fun _ _ => (false, none)
  Intersects := fun _ _ => (false, none)

/-- An engine whose `Buffer` reports a failure. -/
def failingBufferEngine : Engine :=
  { trivialEngine with Buffer := fun _ _ _ => ([], some ⟨"buffer engine failure"⟩) }

/-- An engine whose `Buffer` succeeds but yields unparsable geometry text. -/
def badOutputBufferEngine : Engine :=
  { trivialEngine with Buffer := fun _ _ _ => ([Tok.comma], none) }

/-- An engine whose `Boundary` succeeds but yields unparsable geometry text. -/
def badOutputBoundaryEngine : Engine :=
  { trivialEngine with Boundary := fun _ => ([Tok.comma], none) }

/-- An engine whose `Boundary` reports a failure. -/
def failingBoundaryEngine : Engine :=
  { trivialEngine with Boundary := fun _ => ([], some ⟨"boundary engine failure"⟩) }

/-- Mutual exclusivity of a `(Geometry, error)` result pair: a geometry
is returned exactly when no error is; results of other shapes are not
constrained. -/
def exclusiveRes : OpResult → Prop
  | .geomRes r => r.1.isSome ↔ r.2 = none
  | _ => True

/-- Parsing the serialization of a nonempty coordinate sequence, followed
by a closing parenthesis, recovers the sequence and stops at the `rp`. -/
theorem parseCoords_ser : ∀ (cs : List Coord) (rest : List Tok), cs ≠ [] →
    parseCoords (serCoords cs ++ .rp :: rest) = some (cs, .rp :: rest)
  | [], _, h => absurd rfl h
  | [(x, y)], rest, _ => by
      simp [serCoords, serCoord, parseCoords]
  | (x, y) :: c2 :: cs, rest, _ => by
      have ih := parseCoords_ser (c2 :: cs) rest (by simp)
      simp [serCoords, serCoord, parseCoords, ih]

/-- Parsing the serialization of a parenthesized coordinate group recovers
the group and leaves the tail untouched. -/
theorem parseCoordGroup_ser (cs : List Coord) (rest : List Tok) :
    parseCoordGroup (serParen (serCoords cs) ++ rest) = some (cs, rest) := by
  rcases cs with _ | ⟨⟨x, y⟩, cs'⟩
  · simp [serCoords, serParen, parseCoordGroup]
  · have h := parseCoords_ser ((x, y) :: cs') rest (by simp)
    rcases cs' with _ | ⟨⟨x2, y2⟩, cs''⟩
    · simp only [serCoords, serCoord, serParen] at h ⊢
      simp only [List.cons_append, List.nil_append, List.append_assoc] at h ⊢
      simp [parseCoordGroup, h]
    · simp only [serCoords, serCoord, serParen] at h ⊢
      simp only [List.cons_append, List.nil_append, List.append_assoc] at h ⊢
      simp [parseCoordGroup, h]

/-- Each serialized ring contributes at least one token per ring. -/
theorem len_serGroups : ∀ rs : List (List Coord), rs.length ≤ (serGroups rs).length
  | [] => by simp [serGroups]
  | [r] => by simp [serGroups, serParen]
  | r :: r2 :: rs => by
      have ih := len_serGroups (r2 :: rs)
      simp only [serGroups, serParen] at ih ⊢
      simp at ih ⊢
      omega

/-- Parsing the serialization of a nonempty ring sequence, with enough
fuel for the number of rings, recovers the rings and stops at the `rp`. -/
theorem parseGroups_ser : ∀ (rs : List (List Coord)) (fuel : Nat) (rest : List Tok),
    rs ≠ [] → rs.length ≤ fuel →
    parseGroups fuel (serGroups rs ++ .rp :: rest) = some (rs, .rp :: rest)
  | [], _, _, h, _ => absurd rfl h
  | _ :: _, 0, _, _, hf => by simp at hf
  | [r], fuel + 1, rest, _, _ => by
      have h := parseCoordGroup_ser r (.rp :: rest)
      simp only [serGroups]
      simp [parseGroups, h]
  | r :: r2 :: rs, fuel + 1, rest, _, hf => by
      have h := parseCoordGroup_ser r (.comma :: (serGroups (r2 :: rs) ++ .rp :: rest))
      have ih := parseGroups_ser (r2 :: rs) fuel rest (by simp) (by simp at hf ⊢; omega)
      simp only [serGroups]
      simp only [List.cons_append, List.nil_append, List.append_assoc] at h ⊢
      simp [parseGroups, h, ih]

/-- Parsing the serialization of one parenthesized ring group recovers
the rings, given fuel at least the number of rings. -/
theorem parseGroupGroup_ser (rs : List (List Coord)) (fuel : Nat) (rest : List Tok)
    (hf : rs.length ≤ fuel) :
    parseGroupGroup fuel (serGroupGroup rs ++ rest) = some (rs, rest) := by
  rcases rs with _ | ⟨r, rs'⟩
  · simp [serGroupGroup, serGroups, parseGroupGroup]
  · have h := parseGroups_ser (r :: rs') fuel rest (by simp) hf
    rcases rs' with _ | ⟨r2, rs''⟩
    · simp only [serGroups, serParen, serGroupGroup] at h ⊢
      simp only [List.cons_append, List.nil_append, List.append_assoc] at h ⊢
      simp [parseGroupGroup, h]
    · simp only [serGroups, serParen, serGroupGroup] at h ⊢
      simp only [List.cons_append, List.nil_append, List.append_assoc] at h ⊢
      simp [parseGroupGroup, h]

/-- A serialized ring group is at least two tokens long. -/
theorem two_le_len_serGroupGroup (rs : List (List Coord)) :
    2 ≤ (serGroupGroup rs).length := by
  simp [serGroupGroup]

/-- Token length dominates the number of polygons in a multipolygon body. -/
theorem len_serGroups2 : ∀ ps : List (List (List Coord)),
    ps.length ≤ (serGroups2 ps).length
  | [] => by simp [serGroups2]
  | [p] => by
      have := two_le_len_serGroupGroup p
      simp [serGroups2]; omega
  | p :: p2 :: ps => by
      have ih := len_serGroups2 (p2 :: ps)
      have h2 := two_le_len_serGroupGroup p
      simp only [serGroups2] at ih ⊢
      simp at ih ⊢
      omega

/-- Parsing the serialization of a nonempty multipolygon body, with fuel
at least its token length, recovers the polygons. -/
theorem parseGroups2_ser : ∀ (ps : List (List (List Coord))) (fuel : Nat) (rest : List Tok),
    ps ≠ [] → (serGroups2 ps).length ≤ fuel →
    parseGroups2 fuel (serGroups2 ps ++ .rp :: rest) = some (ps, .rp :: rest)
  | [], _, _, h, _ => absurd rfl h
  | [p], 0, _, _, hf => by
      exfalso
      have := two_le_len_serGroupGroup p
      simp only [serGroups2] at hf
      omega
  | p :: p2 :: ps, 0, _, _, hf => by
      exfalso
      have := two_le_len_serGroupGroup p
      simp only [serGroups2, List.length_append, List.length_cons] at hf
      omega
  | [p], fuel + 1, rest, _, hf => by
      have hlen : p.length ≤ fuel := by
        have h1 := len_serGroups p
        simp only [serGroups2, serGroupGroup] at hf
        simp at hf
        omega
      have h := parseGroupGroup_ser p fuel (.rp :: rest) hlen
      simp only [serGroups2]
      simp [parseGroups2, h]
  | p :: p2 :: ps, fuel + 1, rest, _, hf => by
      have hflat : (serGroupGroup p).length + 1 + (serGroups2 (p2 :: ps)).length ≤ fuel + 1 := by
        simp only [serGroups2] at hf
        simp at hf ⊢
        omega
      have hlen : p.length ≤ fuel := by
        have h1 := len_serGroups p
        have h2 := two_le_len_serGroupGroup p
        simp only [serGroupGroup] at hflat h2
        simp at hflat h2
        omega
      have hrec : (serGroups2 (p2 :: ps)).length ≤ fuel := by
        have h2 := two_le_len_serGroupGroup p
        omega
      have h := parseGroupGroup_ser p fuel (.comma :: (serGroups2 (p2 :: ps) ++ .rp :: rest)) hlen
      have ih := parseGroups2_ser (p2 :: ps) fuel rest (by simp) hrec
      simp only [serGroups2]
      simp only [List.cons_append, List.nil_append, List.append_assoc] at h ⊢
      simp [parseGroups2, h, ih]

/-- Every serialized geometry is at least two tokens long (keyword plus
body or `EMPTY`). -/
theorem two_le_len_serGeom (g : Geometry) : 2 ≤ (serGeom g).length := by
  cases g with
  | point c => simp [serGeom]
  | lineString cs => cases cs <;> simp [serGeom]
  | polygon rs => cases rs <;> simp [serGeom]
  | multiPoint cs => cases cs <;> simp [serGeom]
  | multiLineString ls => cases ls <;> simp [serGeom]
  | multiPolygon ps => cases ps <;> simp [serGeom]
  | collection gs => cases gs <;> simp [serGeom]

/-- Round-trip of the recursive-descent core: with fuel at least the
serialized length, parsing the serialization of a geometry (or of a
nonempty collection body terminated by `rp`) recovers it exactly and
leaves the tail untouched. -/
theorem parse_ser_fuel : ∀ fuel : Nat,
    (∀ (g : Geometry) (rest : List Tok), (serGeom g).length ≤ fuel →
      parseGeom fuel (serGeom g ++ rest) = some (g, rest)) ∧
    (∀ (gs : List Geometry) (rest : List Tok), gs ≠ [] →
      (serGeomList gs).length < fuel →
      parseGeomList fuel (serGeomList gs ++ .rp :: rest) = some (gs, .rp :: rest)) := by
  intro fuel
  induction fuel with
  | zero =>
    constructor
    · intro g _ hlen
      exfalso
      have := two_le_len_serGeom g
      omega
    · intro gs _ _ hlen
      exact absurd hlen (by omega)
  | succ fuel ih =>
    constructor
    · intro g rest hlen
      cases g with
      | point c => simp [serGeom, parseGeom]
      | lineString cs =>
        rcases cs with _ | ⟨c, cs'⟩
        · simp [serGeom, parseGeom]
        · have h := parseCoordGroup_ser (c :: cs') rest
          simp only [serParen, List.cons_append, List.nil_append, List.append_assoc] at h
          simp only [serGeom, List.cons_append, List.nil_append, List.append_assoc]
          simp [parseGeom, h]
      | multiPoint cs =>
        rcases cs with _ | ⟨c, cs'⟩
        · simp [serGeom, parseGeom]
        · have h := parseCoordGroup_ser (c :: cs') rest
          simp only [serParen, List.cons_append, List.nil_append, List.append_assoc] at h
          simp only [serGeom, List.cons_append, List.nil_append, List.append_assoc]
          simp [parseGeom, h]
      | polygon rs =>
        rcases rs with _ | ⟨r, rs'⟩
        · simp [serGeom, parseGeom]
        · have hrs : (r :: rs').length ≤ fuel := by
            have h1 := len_serGroups (r :: rs')
            simp [serGeom] at hlen
            omega
          have h := parseGroups_ser (r :: rs') fuel rest (by simp) hrs
          simp only [serGeom, List.cons_append, List.nil_append, List.append_assoc]
          simp [parseGeom, h]
      | multiLineString ls =>
        rcases ls with _ | ⟨l, ls'⟩
        · simp [serGeom, parseGeom]
        · have hls : (l :: ls').length ≤ fuel := by
            have h1 := len_serGroups (l :: ls')
            simp [serGeom] at hlen
            omega
          have h := parseGroups_ser (l :: ls') fuel rest (by simp) hls
          simp only [serGeom, List.cons_append, List.nil_append, List.append_assoc]
          simp [parseGeom, h]
      | multiPolygon ps =>
        rcases ps with _ | ⟨p, ps'⟩
        · simp [serGeom, parseGeom]
        · have hps : (serGroups2 (p :: ps')).length ≤ fuel := by
            simp [serGeom] at hlen
            omega
          have h := parseGroups2_ser (p :: ps') fuel rest (by simp) hps
          simp only [serGeom, List.cons_append, List.nil_append, List.append_assoc]
          simp [parseGeom, h]
      | collection gs =>
        rcases gs with _ | ⟨g2, gs'⟩
        · simp [serGeom, parseGeom]
        · have hgs : (serGeomList (g2 :: gs')).length < fuel := by
            simp [serGeom] at hlen
            omega
          have h := ih.2 (g2 :: gs') rest (by simp) hgs
          simp only [serGeom, List.cons_append, List.nil_append, List.append_assoc]
          simp [parseGeom, h]
    · intro gs rest hne hlen
      match gs with
      | [] => exact absurd rfl hne
      | [g] =>
        have h := ih.1 g (.rp :: rest) (by
          simp only [serGeomList] at hlen
          omega)
        simp only [serGeomList]
        simp [parseGeomList, h]
      | g :: g2 :: gs' =>
        have hlen' : (serGeom g).length + 1 + (serGeomList (g2 :: gs')).length ≤ fuel := by
          simp only [serGeomList] at hlen
          simp at hlen
          omega
        have hg2 := two_le_len_serGeom g
        have h1 := ih.1 g (.comma :: (serGeomList (g2 :: gs') ++ .rp :: rest)) (by omega)
        have h2 := ih.2 (g2 :: gs') rest (by simp) (by omega)
        simp only [serGeomList, List.cons_append, List.nil_append, List.append_assoc]
        simp [parseGeomList, h1, h2]

/-- Serialize-then-deserialize recovers the geometry exactly. -/
theorem UnmarshalString_MarshalString (g : Geometry) :
    UnmarshalString (MarshalString g) = (some g, none) := by
  have h := (parse_ser_fuel (serGeom g).length).1 g [] (le_refl _)
  simp only [List.append_nil] at h
  simp [UnmarshalString, MarshalString, h]

/-- Deserialization yields a geometry exactly when it yields no error. -/
theorem UnmarshalString_excl (t : Wkt) :
    (UnmarshalString t).1.isSome ↔ (UnmarshalString t).2 = none := by
  unfold UnmarshalString
  split <;> simp

/-- On an engine failure, pattern-A control flow returns the nil
geometry and the engine's failure as the typed error. -/
theorem geomResultOfA_engineErr (r : Wkt × Option EngineFailure) (f : EngineFailure)
    (h : r.2 = some f) : geomResultOfA r = (none, some (Err.engine f)) := by
  unfold geomResultOfA
  rw [h]

/-- On an engine failure, pattern-B control flow returns the nil
geometry and the engine's failure as the typed error. -/
theorem geomResultOfB_engineErr (r : Wkt × Option EngineFailure) (f : EngineFailure)
    (h : r.2 = some f) : geomResultOfB r = (none, some (Err.engine f)) := by
  unfold geomResultOfB
  rw [h]

/-- On an engine failure, a pass-through result carries the failure as
the typed error. -/
theorem scalarResult_engineErr {α : Type} (r : α × Option EngineFailure) (f : EngineFailure)
    (h : r.2 = some f) : (scalarResult r).2 = some (Err.engine f) := by
  simp [scalarResult, h]

/-- On engine success with unparsable output, pattern-A control flow
returns the deserialization failure as the typed error. -/
theorem geomResultOfA_parseErr (r : Wkt × Option EngineFailure) (pf : ParseFailure)
    (he : r.2 = none) (hp : parseErrOf r = some pf) :
    geomResultOfA r = (none, some (Err.parse pf)) := by
  rcases r with ⟨w, e⟩
  cases e with
  | some e2 => exact absurd he (by simp)
  | none =>
    simp only [parseErrOf] at hp
    simp [geomResultOfA, hp]

/-- On engine success with unparsable output, pattern-B control flow
returns the deserialization failure as the typed error; the geometry
component is nil because deserialization never yields both. -/
theorem geomResultOfB_parseErr (r : Wkt × Option EngineFailure) (pf : ParseFailure)
    (he : r.2 = none) (hp : parseErrOf r = some pf) :
    geomResultOfB r = (none, some (Err.parse pf)) := by
  rcases r with ⟨w, e⟩
  cases e with
  | some e2 => exact absurd he (by simp)
  | none =>
    simp only [parseErrOf] at hp
    have h1 : (UnmarshalString w).1 = none := by
      have hx := UnmarshalString_excl w
      rw [hp] at hx
      simp at hx
      exact hx
    simp [geomResultOfB, h1, hp]

/-- On engine success with parsable output, pattern-A control flow
returns no error. -/
theorem geomResultOfA_ok (r : Wkt × Option EngineFailure)
    (he : r.2 = none) (hp : parseErrOf r = none) :
    (geomResultOfA r).2 = none := by
  rcases r with ⟨w, e⟩
  cases e with
  | some e2 => exact absurd he (by simp)
  | none =>
    simp only [parseErrOf] at hp
    simp [geomResultOfA, hp]

/-- On engine success with parsable output, pattern-B control flow
returns no error. -/
theorem geomResultOfB_ok (r : Wkt × Option EngineFailure)
    (he : r.2 = none) (hp : parseErrOf r = none) :
    (geomResultOfB r).2 = none := by
  rcases r with ⟨w, e⟩
  cases e with
  | some e2 => exact absurd he (by simp)
  | none =>
    simp only [parseErrOf] at hp
    simp [geomResultOfB, hp]

/-- On engine success, a pass-through result carries no error. -/
theorem scalarResult_ok {α : Type} (r : α × Option EngineFailure)
    (h : r.2 = none) : (scalarResult r).2 = none := by
  simp [scalarResult, h]

/-- The spec's §4.2 geometry protocol coincides definitionally with the
pattern-A control flow of the source. -/
theorem protocolGeom_eq_geomResultOfA (r : Wkt × Option EngineFailure) :
    protocolGeom r = geomResultOfA r := rfl

/-- The pattern-B control flow (`return UnmarshalString(out)` as-is)
coincides with the spec's §4.2 geometry protocol, because
deserialization never returns a geometry together with an error. -/
theorem geomResultOfB_eq_protocolGeom (r : Wkt × Option EngineFailure) :
    geomResultOfB r = protocolGeom r := by
  unfold geomResultOfB protocolGeom
  rcases r with ⟨w, e⟩
  cases e with
  | none =>
    rcases hu : (UnmarshalString w).2 with _ | pe
    · simp [hu]
    · have h1 : (UnmarshalString w).1 = none := by
        have hx := UnmarshalString_excl w
        rw [hu] at hx
        simp at hx
        exact hx
      simp [hu, h1]
  | some e => rfl

/-- Pattern-A results never pair a geometry with an error nor omit
both. -/
theorem geomResultOfA_excl (r : Wkt × Option EngineFailure) :
    (geomResultOfA r).1.isSome ↔ (geomResultOfA r).2 = none := by
  unfold geomResultOfA
  rcases r with ⟨w, e⟩
  cases e with
  | none =>
    rcases hu : (UnmarshalString w).2 with _ | pe
    · simp [hu]
      exact (UnmarshalString_excl w).mpr hu
    · simp [hu]
  | some e => simp

/-- Pattern-B results never pair a geometry with an error nor omit
both. -/
theorem geomResultOfB_excl (r : Wkt × Option EngineFailure) :
    (geomResultOfB r).1.isSome ↔ (geomResultOfB r).2 = none := by
  rw [geomResultOfB_eq_protocolGeom, protocolGeom_eq_geomResultOfA]
  exact geomResultOfA_excl r

/-- `SharedPaths` returns the engine's failure as the typed error. -/
theorem SharedPaths_engineErr (G : GEOAlgorithm) (E : Engine) (g1 g2 : Geometry)
    (f : EngineFailure)
    (h : (E.SharedPaths (MarshalString g1) (MarshalString g2)).2 = some f) :
    (GEOAlgorithm.SharedPaths G E g1 g2).2 = some (Err.engine f) := by
  simp [GEOAlgorithm.SharedPaths, h]

/-- `SharedPaths` returns no error when the engine succeeds. -/
theorem SharedPaths_ok (G : GEOAlgorithm) (E : Engine) (g1 g2 : Geometry)
    (h : (E.SharedPaths (MarshalString g1) (MarshalString g2)).2 = none) :
    (GEOAlgorithm.SharedPaths G E g1 g2).2 = none := by
  simp [GEOAlgorithm.SharedPaths, h]

/-- C1 counterexample: `Buffer` violates the claim.  At a concrete
engine that reports a failure for the `Buffer` call, the operation
returns only the nil geometry — its signature has no error result, so
the caller receives no typed error at all: the engine's failure is
silently replaced by the zero result. -/
theorem C1_counterexample :
    engineErrAt failingBufferEngine CatalogOp.buffer {} = some ⟨"buffer engine failure"⟩ ∧
    GEOAlgorithm.dispatch GEOAlgorithm.mk failingBufferEngine CatalogOp.buffer {} =
      OpResult.geomOnly none ∧
    resErr (GEOAlgorithm.dispatch GEOAlgorithm.mk failingBufferEngine CatalogOp.buffer {}) =
      none :=
  ⟨rfl, rfl, rfl⟩

/-- C1 (amended): for every catalog operation except `Buffer`, if the
engine reports failure `f`, the operation returns exactly
`Err.engine f` to its caller (alongside a nil/zero result), with no
recovery and no substituted default; `Buffer` instead discards the
failure and returns a nil geometry. -/
theorem C1_errorPropagation_amended (G : GEOAlgorithm) (E : Engine) (o : CatalogOp)
    (a : OpArgs) (f : EngineFailure) (ho : o ≠ CatalogOp.buffer)
    (hf : engineErrAt E o a = some f) :
    resErr (G.dispatch E o a) = some (Err.engine f) := by
  cases o with
  | area => exact scalarResult_engineErr _ f hf
  | boundary => exact congrArg Prod.snd (geomResultOfA_engineErr _ f hf)
  | centroid => exact congrArg Prod.snd (geomResultOfA_engineErr _ f hf)
  | isSimple => exact scalarResult_engineErr _ f hf
  | length => exact scalarResult_engineErr _ f hf
  | distance => exact scalarResult_engineErr _ f hf
  | hausdorffDistance => exact scalarResult_engineErr _ f hf
  | isEmpty => exact scalarResult_engineErr _ f hf
  | envelope => exact congrArg Prod.snd (geomResultOfB_engineErr _ f hf)
  | convexHull => exact congrArg Prod.snd (geomResultOfB_engineErr _ f hf)
  | unaryUnion => exact congrArg Prod.snd (geomResultOfB_engineErr _ f hf)
  | pointOnSurface => exact congrArg Prod.snd (geomResultOfB_engineErr _ f hf)
  | lineMerge => exact congrArg Prod.snd (geomResultOfB_engineErr _ f hf)
  | simplify => exact congrArg Prod.snd (geomResultOfB_engineErr _ f hf)
  | simplifyP => exact congrArg Prod.snd (geomResultOfB_engineErr _ f hf)
  | overlaps => exact scalarResult_engineErr _ f hf
  | equals => exact scalarResult_engineErr _ f hf
  | covers => exact scalarResult_engineErr _ f hf
  | coveredBy => exact scalarResult_engineErr _ f hf
  | isRing => exact scalarResult_engineErr _ f hf
  | hasZ => exact scalarResult_engineErr _ f hf
  | isClosed => exact scalarResult_engineErr _ f hf
  | nGeometry => exact scalarResult_engineErr _ f hf
  | buffer => exact absurd rfl ho
  | equalsExact => exact scalarResult_engineErr _ f hf
  | hausdorffDistanceDensify => exact scalarResult_engineErr _ f hf
  | relate => exact scalarResult_engineErr _ f hf
  | crosses => exact scalarResult_engineErr _ f hf
  | within => exact scalarResult_engineErr _ f hf
  | contains => exact scalarResult_engineErr _ f hf
  | uniquePoints => exact congrArg Prod.snd (geomResultOfA_engineErr _ f hf)
  | sharedPaths => exact SharedPaths_engineErr G E a.g1 a.g2 f hf
  | snap => exact congrArg Prod.snd (geomResultOfA_engineErr _ f hf)
  | intersection => exact congrArg Prod.snd (geomResultOfA_engineErr _ f hf)
  | difference => exact congrArg Prod.snd (geomResultOfA_engineErr _ f hf)
  | symDifference => exact congrArg Prod.snd (geomResultOfA_engineErr _ f hf)
  | union => exact congrArg Prod.snd (geomResultOfA_engineErr _ f hf)
  | disjoint => exact scalarResult_engineErr _ f hf
  | touches => exact scalarResult_engineErr _ f hf
  | intersects => exact scalarResult_engineErr _ f hf

/-- C1 witness: a concrete engine failure of `Boundary` is returned to
the caller as the typed engine error. -/
theorem C1_errorPropagation_amended_witness :
    resErr (GEOAlgorithm.dispatch GEOAlgorithm.mk failingBoundaryEngine CatalogOp.boundary {}) =
      some (Err.engine ⟨"boundary engine failure"⟩) :=
  C1_errorPropagation_amended GEOAlgorithm.mk failingBoundaryEngine CatalogOp.boundary {}
    ⟨"boundary engine failure"⟩ (by decide) rfl

/-- C2 counterexample: `Buffer` violates the claim.  At a concrete
engine whose `Buffer` call succeeds but yields unparsable geometry
text, the deserialization failure exists yet the operation returns only
a nil geometry and no error: the failure is not propagated at all. -/
theorem C2_counterexample :
    engineErrAt badOutputBufferEngine CatalogOp.buffer {} = none ∧
    parseErrAt badOutputBufferEngine CatalogOp.buffer {} = some ⟨"ParseError"⟩ ∧
    GEOAlgorithm.dispatch GEOAlgorithm.mk badOutputBufferEngine CatalogOp.buffer {} =
      OpResult.geomOnly none ∧
    resErr (GEOAlgorithm.dispatch GEOAlgorithm.mk badOutputBufferEngine CatalogOp.buffer {}) =
      none :=
  ⟨rfl, rfl, rfl, rfl⟩

/-- C2 (amended): for every catalog operation except `Buffer` whose
engine result is geometry text, if the engine succeeds but
deserializing its output fails, the operation returns exactly
`Err.parse pf`, which is distinguishable from every engine-reported
failure `Err.engine f`; `Buffer` instead discards the failure. -/
theorem C2_parseFailure_amended (G : GEOAlgorithm) (E : Engine) (o : CatalogOp)
    (a : OpArgs) (pf : ParseFailure) (ho : o ≠ CatalogOp.buffer)
    (he : engineErrAt E o a = none) (hp : parseErrAt E o a = some pf) :
    resErr (G.dispatch E o a) = some (Err.parse pf) ∧
      ∀ f : EngineFailure, (Err.parse pf : Err) ≠ Err.engine f := by
  refine ⟨?_, fun f h => by simp at h⟩
  cases o with
  | area => simp [parseErrAt] at hp
  | boundary => exact congrArg Prod.snd (geomResultOfA_parseErr _ pf he hp)
  | centroid => exact congrArg Prod.snd (geomResultOfA_parseErr _ pf he hp)
  | isSimple => simp [parseErrAt] at hp
  | length => simp [parseErrAt] at hp
  | distance => simp [parseErrAt] at hp
  | hausdorffDistance => simp [parseErrAt] at hp
  | isEmpty => simp [parseErrAt] at hp
  | envelope => exact congrArg Prod.snd (geomResultOfB_parseErr _ pf he hp)
  | convexHull => exact congrArg Prod.snd (geomResultOfB_parseErr _ pf he hp)
  | unaryUnion => exact congrArg Prod.snd (geomResultOfB_parseErr _ pf he hp)
  | pointOnSurface => exact congrArg Prod.snd (geomResultOfB_parseErr _ pf he hp)
  | lineMerge => exact congrArg Prod.snd (geomResultOfB_parseErr _ pf he hp)
  | simplify => exact congrArg Prod.snd (geomResultOfB_parseErr _ pf he hp)
  | simplifyP => exact congrArg Prod.snd (geomResultOfB_parseErr _ pf he hp)
  | overlaps => simp [parseErrAt] at hp
  | equals => simp [parseErrAt] at hp
  | covers => simp [parseErrAt] at hp
  | coveredBy => simp [parseErrAt] at hp
  | isRing => simp [parseErrAt] at hp
  | hasZ => simp [parseErrAt] at hp
  | isClosed => simp [parseErrAt] at hp
  | nGeometry => simp [parseErrAt] at hp
  | buffer => exact absurd rfl ho
  | equalsExact => simp [parseErrAt] at hp
  | hausdorffDistanceDensify => simp [parseErrAt] at hp
  | relate => simp [parseErrAt] at hp
  | crosses => simp [parseErrAt] at hp
  | within => simp [parseErrAt] at hp
  | contains => simp [parseErrAt] at hp
  | uniquePoints => exact congrArg Prod.snd (geomResultOfA_parseErr _ pf he hp)
  | sharedPaths => simp [parseErrAt] at hp
  | snap => exact congrArg Prod.snd (geomResultOfA_parseErr _ pf he hp)
  | intersection => exact congrArg Prod.snd (geomResultOfA_parseErr _ pf he hp)
  | difference => exact congrArg Prod.snd (geomResultOfA_parseErr _ pf he hp)
  | symDifference => exact congrArg Prod.snd (geomResultOfA_parseErr _ pf he hp)
  | union => exact congrArg Prod.snd (geomResultOfA_parseErr _ pf he hp)
  | disjoint => simp [parseErrAt] at hp
  | touches => simp [parseErrAt] at hp
  | intersects => simp [parseErrAt] at hp

/-- C2 witness: a concrete unparsable `Boundary` output is returned as
the typed parse error, distinct from every engine error. -/
theorem C2_parseFailure_amended_witness :
    resErr (GEOAlgorithm.dispatch GEOAlgorithm.mk badOutputBoundaryEngine
        CatalogOp.boundary {}) = some (Err.parse ⟨"ParseError"⟩) ∧
      ∀ f : EngineFailure, (Err.parse ⟨"ParseError"⟩ : Err) ≠ Err.engine f :=
  C2_parseFailure_amended GEOAlgorithm.mk badOutputBoundaryEngine CatalogOp.boundary {}
    ⟨"ParseError"⟩ (by decide) rfl rfl

/-- C3 counterexample: `Buffer` is not the marshal → delegate →
unmarshal composition.  At a concrete engine that reports a failure for
the `Buffer` call, the §4.2 protocol composition yields the typed
engine error while the operation yields only a nil geometry. -/
theorem C3_counterexample :
    GEOAlgorithm.dispatch GEOAlgorithm.mk failingBufferEngine CatalogOp.buffer {} =
      OpResult.geomOnly none ∧
    protocol failingBufferEngine CatalogOp.buffer {} =
      OpResult.geomRes (none, some (Err.engine ⟨"buffer engine failure"⟩)) ∧
    GEOAlgorithm.dispatch GEOAlgorithm.mk failingBufferEngine CatalogOp.buffer {} ≠
      protocol failingBufferEngine CatalogOp.buffer {} :=
  ⟨rfl, rfl, fun h => nomatch h⟩

/-- C3 (amended): every catalog operation except `Buffer` is exactly
the marshal → delegate → unmarshal composition of §4.2 — for engines
that follow the Go convention of returning the zero string alongside a
`SharedPaths` failure — with geometry-text results deserialized and
scalar/boolean/string results passed through unchanged; `Buffer`
deviates by discarding both failure kinds. -/
theorem C3_shimComposition_amended (G : GEOAlgorithm) (E : Engine) (o : CatalogOp)
    (a : OpArgs) (ho : o ≠ CatalogOp.buffer)
    (hsp : ∀ s t, (E.SharedPaths s t).2.isSome → (E.SharedPaths s t).1 = "") :
    G.dispatch E o a = protocol E o a := by
  cases o with
  | area => rfl
  | boundary => rfl
  | centroid => rfl
  | isSimple => rfl
  | length => rfl
  | distance => rfl
  | hausdorffDistance => rfl
  | isEmpty => rfl
  | envelope => exact congrArg OpResult.geomRes (geomResultOfB_eq_protocolGeom _)
  | convexHull => exact congrArg OpResult.geomRes (geomResultOfB_eq_protocolGeom _)
  | unaryUnion => exact congrArg OpResult.geomRes (geomResultOfB_eq_protocolGeom _)
  | pointOnSurface => exact congrArg OpResult.geomRes (geomResultOfB_eq_protocolGeom _)
  | lineMerge => exact congrArg OpResult.geomRes (geomResultOfB_eq_protocolGeom _)
  | simplify => exact congrArg OpResult.geomRes (geomResultOfB_eq_protocolGeom _)
  | simplifyP => exact congrArg OpResult.geomRes (geomResultOfB_eq_protocolGeom _)
  | overlaps => rfl
  | equals => rfl
  | covers => rfl
  | coveredBy => rfl
  | isRing => rfl
  | hasZ => rfl
  | isClosed => rfl
  | nGeometry => rfl
  | buffer => exact absurd rfl ho
  | equalsExact => rfl
  | hausdorffDistanceDensify => rfl
  | relate => rfl
  | crosses => rfl
  | within => rfl
  | contains => rfl
  | uniquePoints => rfl
  | sharedPaths =>
    rcases he : (E.SharedPaths (MarshalString a.g1) (MarshalString a.g2)).2 with _ | f
    · simp [GEOAlgorithm.dispatch, protocol, GEOAlgorithm.SharedPaths, scalarResult, he]
    · have h0 : (E.SharedPaths (MarshalString a.g1) (MarshalString a.g2)).1 = "" :=
        hsp (MarshalString a.g1) (MarshalString a.g2) (by rw [he]; rfl)
      simp [GEOAlgorithm.dispatch, protocol, GEOAlgorithm.SharedPaths, scalarResult, he, h0]
  | snap => rfl
  | intersection => rfl
  | difference => rfl
  | symDifference => rfl
  | union => rfl
  | disjoint => rfl
  | touches => rfl
  | intersects => rfl

/-- C3 witness: at a concrete engine, `SharedPaths` — the one operation
whose shim zeroes the string alongside an engine failure — agrees with
the protocol composition. -/
theorem C3_shimComposition_amended_witness :
    GEOAlgorithm.dispatch GEOAlgorithm.mk trivialEngine CatalogOp.sharedPaths {} =
      protocol trivialEngine CatalogOp.sharedPaths {} :=
  C3_shimComposition_amended GEOAlgorithm.mk trivialEngine CatalogOp.sharedPaths {}
    (by decide) (fun s t h => nomatch h)

/-- C4: deserializing the serialization of any well-formed geometry
yields the original geometry back exactly — in particular spatially
equal: every coordinate value and the variant/topology are preserved —
and no error. -/
theorem C4_roundTrip (g : Geometry) :
    UnmarshalString (MarshalString g) = (some g, none) :=
  UnmarshalString_MarshalString g

/-- C5: serialization is a total, deterministic function — every
well-formed geometry has exactly one serialization and no error
outcome — so an operation that sees no engine failure and no
deserialization failure returns no error at all: marshaling
contributes no failure of its own. -/
theorem C5_marshalTotal :
    (∀ g : Geometry, ∃ s : Wkt, MarshalString g = s ∧ ∀ t : Wkt, MarshalString g = t → t = s) ∧
    (∀ (G : GEOAlgorithm) (E : Engine) (o : CatalogOp) (a : OpArgs),
      engineErrAt E o a = none → parseErrAt E o a = none →
      resErr (GEOAlgorithm.dispatch G E o a) = none) := by
  constructor
  · intro g
    exact ⟨MarshalString g, rfl, fun t ht => ht.symm⟩
  · intro G E o a he hp
    cases o with
    | area => exact scalarResult_ok _ he
    | boundary => exact geomResultOfA_ok _ he hp
    | centroid => exact geomResultOfA_ok _ he hp
    | isSimple => exact scalarResult_ok _ he
    | length => exact scalarResult_ok _ he
    | distance => exact scalarResult_ok _ he
    | hausdorffDistance => exact scalarResult_ok _ he
    | isEmpty => exact scalarResult_ok _ he
    | envelope => exact geomResultOfB_ok _ he hp
    | convexHull => exact geomResultOfB_ok _ he hp
    | unaryUnion => exact geomResultOfB_ok _ he hp
    | pointOnSurface => exact geomResultOfB_ok _ he hp
    | lineMerge => exact geomResultOfB_ok _ he hp
    | simplify => exact geomResultOfB_ok _ he hp
    | simplifyP => exact geomResultOfB_ok _ he hp
    | overlaps => exact scalarResult_ok _ he
    | equals => exact scalarResult_ok _ he
    | covers => exact scalarResult_ok _ he
    | coveredBy => exact scalarResult_ok _ he
    | isRing => exact scalarResult_ok _ he
    | hasZ => exact scalarResult_ok _ he
    | isClosed => exact scalarResult_ok _ he
    | nGeometry => exact scalarResult_ok _ he
    | buffer => rfl
    | equalsExact => exact scalarResult_ok _ he
    | hausdorffDistanceDensify => exact scalarResult_ok _ he
    | relate => exact scalarResult_ok _ he
    | crosses => exact scalarResult_ok _ he
    | within => exact scalarResult_ok _ he
    | contains => exact scalarResult_ok _ he
    | uniquePoints => exact geomResultOfA_ok _ he hp
    | sharedPaths => exact SharedPaths_ok G E a.g1 a.g2 he
    | snap => exact geomResultOfA_ok _ he hp
    | intersection => exact geomResultOfA_ok _ he hp
    | difference => exact geomResultOfA_ok _ he hp
    | symDifference => exact geomResultOfA_ok _ he hp
    | union => exact geomResultOfA_ok _ he hp
    | disjoint => exact scalarResult_ok _ he
    | touches => exact scalarResult_ok _ he
    | intersects => exact scalarResult_ok _ he

/-- C5 witness: at a concrete engine with no failures, `Boundary`
returns no error — in particular its marshal step raised none. -/
theorem C5_marshalTotal_witness :
    resErr (GEOAlgorithm.dispatch GEOAlgorithm.mk trivialEngine CatalogOp.boundary {}) =
      none :=
  C5_marshalTotal.2 GEOAlgorithm.mk trivialEngine CatalogOp.boundary {} rfl rfl

/-- C6: `SymDifference`, `Distance` and `Intersects` are symmetric in
their two geometry arguments whenever the engine functions they
delegate to are — the shim passes the serialized arguments through in
order and adds nothing asymmetric. -/
theorem C6_symmetry (E : Engine)
    (hS : ∀ s t, E.SymDifference s t = E.SymDifference t s)
    (hD : ∀ s t, E.Distance s t = E.Distance t s)
    (hI : ∀ s t, E.Intersects s t = E.Intersects t s)
    (G : GEOAlgorithm) (a b : Geometry) :
    GEOAlgorithm.SymDifference G E a b = GEOAlgorithm.SymDifference G E b a ∧
    GEOAlgorithm.Distance G E a b = GEOAlgorithm.Distance G E b a ∧
    GEOAlgorithm.Intersects G E a b = GEOAlgorithm.Intersects G E b a :=
  ⟨congrArg geomResultOfA (hS (MarshalString a) (MarshalString b)),
   congrArg scalarResult (hD (MarshalString a) (MarshalString b)),
   congrArg scalarResult (hI (MarshalString a) (MarshalString b))⟩

/-- C6 witness: the symmetry instances at a concrete symmetric engine
and concrete points. -/
theorem C6_symmetry_witness :
    GEOAlgorithm.SymDifference GEOAlgorithm.mk trivialEngine
        (.point (0, 0)) (.point (1, 2)) =
      GEOAlgorithm.SymDifference GEOAlgorithm.mk trivialEngine
        (.point (1, 2)) (.point (0, 0)) ∧
    GEOAlgorithm.Distance GEOAlgorithm.mk trivialEngine (.point (0, 0)) (.point (1, 2)) =
      GEOAlgorithm.Distance GEOAlgorithm.mk trivialEngine (.point (1, 2)) (.point (0, 0)) ∧
    GEOAlgorithm.Intersects GEOAlgorithm.mk trivialEngine (.point (0, 0)) (.point (1, 2)) =
      GEOAlgorithm.Intersects GEOAlgorithm.mk trivialEngine (.point (1, 2)) (.point (0, 0)) :=
  C6_symmetry trivialEngine (fun _ _ => rfl) (fun _ _ => rfl) (fun _ _ => rfl)
    GEOAlgorithm.mk (.point (0, 0)) (.point (1, 2))

/-- C7: `Simplify` (resp. `SimplifyP`) is idempotent at a fixed
tolerance whenever the engine function it delegates to is idempotent
and emits canonical geometry text: a successful `Simplify` output, fed
back into `Simplify` with the same tolerance, is returned unchanged. -/
theorem C7_simplifyIdempotent (E : Engine)
    (h1 : ∀ (s : Wkt) (t : Rat) (g : Geometry), (E.Simplify s t).2 = none →
      (UnmarshalString (E.Simplify s t).1).1 = some g →
      MarshalString g = (E.Simplify s t).1)
    (h2 : ∀ (s : Wkt) (t : Rat), (E.Simplify s t).2 = none →
      E.Simplify (E.Simplify s t).1 t = E.Simplify s t)
    (p1 : ∀ (s : Wkt) (t : Rat) (g : Geometry), (E.SimplifyP s t).2 = none →
      (UnmarshalString (E.SimplifyP s t).1).1 = some g →
      MarshalString g = (E.SimplifyP s t).1)
    (p2 : ∀ (s : Wkt) (t : Rat), (E.SimplifyP s t).2 = none →
      E.SimplifyP (E.SimplifyP s t).1 t = E.SimplifyP s t)
    (G : GEOAlgorithm) (g gS : Geometry) (t : Rat) :
    (GEOAlgorithm.Simplify G E g t = (some gS, none) →
      GEOAlgorithm.Simplify G E gS t = (some gS, none)) ∧
    (GEOAlgorithm.SimplifyP G E g t = (some gS, none) →
      GEOAlgorithm.SimplifyP G E gS t = (some gS, none)) := by
  constructor
  · intro h
    have hb : geomResultOfB (E.Simplify (MarshalString g) t) = (some gS, none) := h
    rcases he : (E.Simplify (MarshalString g) t).2 with _ | f
    · simp only [geomResultOfB, he] at hb
      rw [Prod.ext_iff] at hb
      obtain ⟨hb1, hb2⟩ := hb
      simp at hb1 hb2
      have hm := h1 (MarshalString g) t gS he hb1
      show geomResultOfB (E.Simplify (MarshalString gS) t) = (some gS, none)
      rw [hm, h2 (MarshalString g) t he]
      exact h
    · simp only [geomResultOfB, he] at hb
      simp at hb
  · intro h
    have hb : geomResultOfB (E.SimplifyP (MarshalString g) t) = (some gS, none) := h
    rcases he : (E.SimplifyP (MarshalString g) t).2 with _ | f
    · simp only [geomResultOfB, he] at hb
      rw [Prod.ext_iff] at hb
      obtain ⟨hb1, hb2⟩ := hb
      simp at hb1 hb2
      have hm := p1 (MarshalString g) t gS he hb1
      show geomResultOfB (E.SimplifyP (MarshalString gS) t) = (some gS, none)
      rw [hm, p2 (MarshalString g) t he]
      exact h
    · simp only [geomResultOfB, he] at hb
      simp at hb

/-- C7 witness: the idempotence instances at a concrete idempotent
engine with canonical output. -/
theorem C7_simplifyIdempotent_witness :
    GEOAlgorithm.Simplify GEOAlgorithm.mk trivialEngine (.point (0, 0)) 1 =
      (some (.point (0, 0)), none) ∧
    GEOAlgorithm.SimplifyP GEOAlgorithm.mk trivialEngine (.point (0, 0)) 1 =
      (some (.point (0, 0)), none) := by
  have hcanon : ∀ (hu0 : Option Geometry) (g : Geometry),
      hu0 = some (Geometry.point (0, 0)) → hu0 = some g →
      MarshalString g = MarshalString (Geometry.point (0, 0)) := by
    intro hu0 g h0 hg
    rw [h0] at hg
    rw [← Option.some.inj hg]
  have hc := C7_simplifyIdempotent trivialEngine
    (fun s t g _ hu => hcanon _ g (congrArg Prod.fst (UnmarshalString_MarshalString _)) hu)
    (fun _ _ _ => rfl)
    (fun s t g _ hu => hcanon _ g (congrArg Prod.fst (UnmarshalString_MarshalString _)) hu)
    (fun _ _ _ => rfl)
    GEOAlgorithm.mk (Geometry.point (1, 2)) (Geometry.point (0, 0)) 1
  exact ⟨hc.1 rfl, hc.2 rfl⟩

/-- C8: the `GEOAlgorithm` receiver carries no state — all its values
are equal — and dispatch is a pure function of engine, operation and
arguments, independent of the receiver: equal arguments give equal
results. -/
theorem C8_stateless :
    (∀ G G2 : GEOAlgorithm, G = G2) ∧
    (∀ (G G2 : GEOAlgorithm) (E : Engine) (o : CatalogOp) (a : OpArgs),
      GEOAlgorithm.dispatch G E o a = GEOAlgorithm.dispatch G2 E o a) := by
  constructor
  · intro G G2
    cases G
    cases G2
    rfl
  · intro G G2 E o a
    cases G
    cases G2
    rfl

/-- C9: `GEOAlgorithm` supplies a method for every §4.2 catalog
operation — `dispatch` is total over `CatalogOp` — and no method has an
unrecoverable-abort outcome: every dispatch returns a value or an
error, never `panicked`. -/
theorem C9_fullyImplemented (G : GEOAlgorithm) (E : Engine) (o : CatalogOp) (a : OpArgs) :
    GEOAlgorithm.dispatch G E o a ≠ OpResult.panicked := by
  cases o <;> exact fun h => nomatch h

/-- C9 witness: a concrete dispatch that is not a panic. -/
theorem C9_fullyImplemented_witness :
    GEOAlgorithm.dispatch GEOAlgorithm.mk trivialEngine CatalogOp.area {} ≠
      OpResult.panicked :=
  C9_fullyImplemented GEOAlgorithm.mk trivialEngine CatalogOp.area {}

/-- C10: for every operation whose signature is a `(Geometry, error)`
pair, the result is exclusive — the geometry is present exactly when
the error is absent; results of other shapes (scalars, and `Buffer`,
whose signature has no error) carry no such pair. -/
theorem C10_geometryErrorExclusive (G : GEOAlgorithm) (E : Engine) (o : CatalogOp)
    (a : OpArgs) : exclusiveRes (GEOAlgorithm.dispatch G E o a) := by
  cases o with
  | area => trivial
  | boundary => exact geomResultOfA_excl _
  | centroid => exact geomResultOfA_excl _
  | isSimple => trivial
  | length => trivial
  | distance => trivial
  | hausdorffDistance => trivial
  | isEmpty => trivial
  | envelope => exact geomResultOfB_excl _
  | convexHull => exact geomResultOfB_excl _
  | unaryUnion => exact geomResultOfB_excl _
  | pointOnSurface => exact geomResultOfB_excl _
  | lineMerge => exact geomResultOfB_excl _
  | simplify => exact geomResultOfB_excl _
  | simplifyP => exact geomResultOfB_excl _
  | overlaps => trivial
  | equals => trivial
  | covers => trivial
  | coveredBy => trivial
  | isRing => trivial
  | hasZ => trivial
  | isClosed => trivial
  | nGeometry => trivial
  | buffer => trivial
  | equalsExact => trivial
  | hausdorffDistanceDensify => trivial
  | relate => trivial
  | crosses => trivial
  | within => trivial
  | contains => trivial
  | uniquePoints => exact geomResultOfA_excl _
  | sharedPaths => trivial
  | snap => exact geomResultOfA_excl _
  | intersection => exact geomResultOfA_excl _
  | difference => exact geomResultOfA_excl _
  | symDifference => exact geomResultOfA_excl _
  | union => exact geomResultOfA_excl _
  | disjoint => trivial
  | touches => trivial
  | intersects => trivial

end Geos
